import Mathlib

set_option autoImplicit false

/-!
Shallow embedding of the ebook-store frontend: the service layer in
src/frontend/services/stacks.ts and the pages that consume it
(src/frontend/pages/upload.tsx and src/frontend/pages/my-books.tsx;
my-books.tsx contains two concatenated revisions of the component, and
the embedding follows the later revision, whose loadMyBooks scans all
ids 1..count for the published tab).

Modelling conventions:
- JavaScript numbers are modelled as rationals; `Math.floor` is the
  rational floor function.
- Remote contract calls are modelled by oracles: a pure function
  delivering the value the wrapped call would return (`none` standing
  for a null reply), or an `Except` value when a claim is about the
  catch branch of a wrapper.
- Loosely typed records coming back from `cvToValue` are modelled with
  `Option`-typed fields; `none` means the key is absent or the value is
  `undefined`, so that JavaScript truthiness tests (`x || d`) and strict
  comparisons (`===`, `!==`) can be translated faithfully.
- An outcome of type `SubmitOutcome.transaction` is the single remote
  interaction the upload page can issue (the wallet contract call built
  by `registerEbook`); `SubmitOutcome.rejected msg` models `setError msg`
  followed by a return with no remote call of any kind.
-/

/-- Function stxToMicroStx from stacks.ts: `Math.floor(stx * 1_000_000)`. -/
def stxToMicroStx (stx : ℚ) : ℚ := ((⌊stx * 1000000⌋ : ℤ) : ℚ)

/-- Function microStxToStx from stacks.ts: `microStx / 1_000_000`. -/
def microStxToStx (microStx : ℚ) : ℚ := microStx / 1000000

/-- UTF-8 encoding of one Unicode scalar value, as byte values 0..255.
This is the encoding produced by the browser `TextEncoder` used in
upload.tsx. -/
def utf8EncodeCharNat (c : Char) : List Nat :=
  let n := c.toNat
  if n < 128 then [n]
  else if n < 2048 then [192 + n / 64, 128 + n % 64]
  else if n < 65536 then [224 + n / 4096, 128 + n / 64 % 64, 128 + n % 64]
  else [240 + n / 262144, 128 + n / 4096 % 64, 128 + n / 64 % 64, 128 + n % 64]

/-- UTF-8 bytes of a string: `new TextEncoder().encode(s)` in upload.tsx. -/
def utf8Bytes (s : String) : List Nat :=
  s.data.foldr (fun c acc => utf8EncodeCharNat c ++ acc) []

/-- JavaScript `String.prototype.trim`: drop whitespace from both ends. -/
def jsTrim (s : String) : String :=
  ⟨((s.data.dropWhile Char.isWhitespace).reverse.dropWhile Char.isWhitespace).reverse⟩

/-- JavaScript `x || d` for a possibly-undefined string `x`: the default is
taken when the key is absent or the string is empty (both falsy). -/
def jsStrOr (o : Option String) (d : String) : String :=
  match o with
  | some s => if s = "" then d else s
  | none => d

/-- JavaScript `x || d` for a possibly-undefined numeric value `x`: the
default is taken when the key is absent (`Number(undefined)` is NaN,
falsy) or the number is 0 (falsy). -/
def jsNumOr (o : Option ℚ) (d : ℚ) : ℚ :=
  match o with
  | some q => if q = 0 then d else q
  | none => d

/-- State of the upload form's price input, seen through the only two
operations the code applies to it: JavaScript truthiness (`!price`, true
exactly for the empty string) and `parseFloat(price)`.  `empty` is the
empty string, `invalid` a non-empty string whose parseFloat is NaN, and
`value q` a non-empty string parsing to the number `q`. -/
inductive PriceField
  | empty
  | invalid
  | value (q : ℚ)
deriving DecidableEq

/-- Condition `!price || parseFloat(price) <= 0` from upload.tsx.  Note
that a NaN parse passes the check, because `NaN <= 0` is false. -/
def priceRejected (p : PriceField) : Bool :=
  match p with
  | .empty => true
  | .invalid => false
  | .value q => decide (q ≤ 0)

/-- State read by handleSubmit in upload.tsx: the `isSignedIn()` result,
the five form fields (the file field carries the bytes of the selected
file, used only for the preview box). -/
structure UploadForm where
  signedIn : Bool
  title : String
  description : String
  price : PriceField
  file : Option (List Nat)
  ipfsCid : String
deriving DecidableEq

/-- Replace the selected file of a form, leaving every other field as is. -/
def setFile (form : UploadForm) (fb : Option (List Nat)) : UploadForm :=
  ⟨form.signedIn, form.title, form.description, form.price, fb, form.ipfsCid⟩

/-- Observable outcome of one submission of the publish form.
`rejected msg` models `setError(msg)` followed by `return` — no remote
call of any kind is issued on this path.  `transaction t d h m` models
the single remote interaction of the page: the register-ebook contract
call opened with title `t`, description `d`, content hash `h` and price
`m` in microSTX. -/
inductive SubmitOutcome
  | rejected (msg : String)
  | transaction (title description : String) (contentHash : List Nat) (priceMicro : ℚ)
deriving DecidableEq

/-- Function handleSubmit from upload.tsx, as a function of the form
state and of the digest primitive (`crypto.subtle.digest("SHA-256", ·)`
is a browser API, so the SHA-256 function itself is a parameter; the
code applies it to the UTF-8 bytes of the ipfsCid field).  The guards
are translated in source order.  When the price field parsed to NaN the
final branch is the catch branch: `uintCV(NaN)` throws while the
contract-call arguments are being built, before any request is issued,
and the catch handler sets the generic error text. -/
def handleSubmit (form : UploadForm) (digest : List Nat → List Nat) : SubmitOutcome :=
  if form.signedIn = false then .rejected "Please connect your wallet first."
  else if (jsTrim form.title).isEmpty then .rejected "Title is required."
  else if (jsTrim form.description).isEmpty then .rejected "Description is required."
  else if priceRejected form.price then .rejected "Price must be greater than 0."
  else if (jsTrim form.ipfsCid).isEmpty then .rejected "IPFS CID is required. Upload your ebook to IPFS first."
  else
    match form.price with
    | .value q =>
        .transaction form.title form.description (digest (utf8Bytes form.ipfsCid)) (stxToMicroStx q)
    | _ => .rejected "Failed to register ebook. Please try again."

/-- Raw ebook record as delivered by `cvToValue` on a get-ebook reply.
Every field is optional because the code treats the record as loosely
typed and probes both hyphenated and camel-case keys. -/
structure RawEbook where
  title : Option String
  description : Option String
  contentHashHyphen : Option String
  contentHashCamel : Option String
  price : Option ℚ
  author : Option String
  createdAtHyphen : Option ℚ
  createdAtCamel : Option ℚ
  active : Option Bool
deriving DecidableEq

/-- Interface Ebook from stacks.ts. -/
structure Ebook where
  id : Nat
  title : String
  description : String
  contentHash : String
  price : ℚ
  author : String
  createdAt : ℚ
  active : Bool
deriving DecidableEq

/-- Conversion of a raw record performed inside getAllEbooks in
stacks.ts (only the hyphenated keys are probed there; the stored active
flag is the raw truthiness of `ebook.active`, which is true on the
branch that pushes the record). -/
def convertHome (i : Nat) (r : RawEbook) : Ebook :=
  ⟨i,
   jsStrOr r.title "",
   jsStrOr r.description "",
   jsStrOr r.contentHashHyphen "",
   jsNumOr r.price 0,
   jsStrOr r.author "",
   jsNumOr r.createdAtHyphen 0,
   decide (r.active = some true)⟩

/-- Conversion of a raw record performed inside loadMyBooks in
my-books.tsx: hyphenated keys fall back to camel-case keys, and the
active flag is `ebook.active !== false`, so an absent flag counts as
active. -/
def convertMyBooks (i : Nat) (r : RawEbook) : Ebook :=
  ⟨i,
   jsStrOr r.title "",
   jsStrOr r.description "",
   jsStrOr r.contentHashHyphen (jsStrOr r.contentHashCamel ""),
   jsNumOr r.price 0,
   jsStrOr r.author "",
   jsNumOr r.createdAtHyphen (jsNumOr r.createdAtCamel 0),
   decide (r.active ≠ some false)⟩

/-- Loop body of getAllEbooks from stacks.ts over a list of ids: each
iteration performs exactly one getEbook fetch (recorded in the first
component, in order), and pushes the converted record only when the
fetch returned a record whose active flag is truthy. -/
def getAllEbooksGo (fetch : Nat → Option RawEbook) : List Nat → List Nat × List Ebook
  | [] => ([], [])
  | i :: rest =>
    (i :: (getAllEbooksGo fetch rest).1,
     (match fetch i with
      | some r => if r.active = some true then [convertHome i r] else []
      | none => []) ++ (getAllEbooksGo fetch rest).2)

/-- Function getAllEbooks from stacks.ts as a run that also records the
ids fetched: the loop `for (let i = 1; i <= count; i++)` visits ids
1..count.  `count` is the value returned by the get-ebook-count call and
`fetch` the oracle behind getEbook. -/
def getAllEbooksRun (count : Nat) (fetch : Nat → Option RawEbook) : List Nat × List Ebook :=
  getAllEbooksGo fetch (List.range' 1 count)

/-- Result list of getAllEbooks from stacks.ts. -/
def getAllEbooks (count : Nat) (fetch : Nat → Option RawEbook) : List Ebook :=
  (getAllEbooksRun count fetch).2

/-- Contribution of id `i` to the getAllEbooks result: the converted
record when the fetch succeeds and the active flag is truthy. -/
def activeEntry (fetch : Nat → Option RawEbook) (i : Nat) : Option Ebook :=
  match fetch i with
  | some r => if r.active = some true then some (convertHome i r) else none
  | none => none

/-- Scan loop of loadMyBooks in my-books.tsx: for each id in turn, fetch
the record and push its conversion when `ebook.author === address`
(strict equality, false when the author key is absent). -/
def scanGo (address : String) (fetch : Nat → Option RawEbook) : List Nat → List Ebook
  | [] => []
  | i :: rest =>
    (match fetch i with
     | some r => if r.author = some address then [convertMyBooks i r] else []
     | none => []) ++ scanGo address fetch rest

/-- Contribution of id `i` to the my-books scan result. -/
def scanEntry (address : String) (fetch : Nat → Option RawEbook) (i : Nat) : Option Ebook :=
  match fetch i with
  | some r => if r.author = some address then some (convertMyBooks i r) else none
  | none => none

/-- Published list computed by loadMyBooks in my-books.tsx: a full scan
over ids 1..count keeping the records authored by `address`. -/
def loadMyBooksPublished (address : String) (count : Nat) (fetch : Nat → Option RawEbook) : List Ebook :=
  scanGo address fetch (List.range' 1 count)

/-- Purchased list computed by loadMyBooks in my-books.tsx: one fetch
per id of the buyer-indexed id list, dropping null replies
(`.filter(Boolean)` on the awaited promises). -/
def loadMyBooksPurchased (buyerIds : List Nat) (fetch : Nat → Option RawEbook) : List Ebook :=
  buyerIds.filterMap (fun i => Option.map (convertMyBooks i) (fetch i))

/-- Data computed by one run of loadMyBooks in my-books.tsx.  The
author-indexed id list fetched by getAuthorEbooks flows only into the
debug text shown on the page, recorded here as `debugAuthorIds`. -/
structure MyBooksResult where
  published : List Ebook
  purchased : List Ebook
  debugAuthorIds : List Nat
deriving DecidableEq

/-- Function loadMyBooks from my-books.tsx (later revision), as a
function of the user address and of the values the four kinds of remote
calls deliver: the get-ebook-count reply `count`, the getAuthorEbooks
reply `authorIds`, the getBuyerEbooks reply `buyerIds`, and the getEbook
oracle `fetch`. -/
def loadMyBooks (address : String) (count : Nat) (authorIds buyerIds : List Nat)
    (fetch : Nat → Option RawEbook) : MyBooksResult :=
  ⟨loadMyBooksPublished address count fetch, loadMyBooksPurchased buyerIds fetch, authorIds⟩

/-- Function getEbook from stacks.ts as a function of the remote call's
outcome: a throwing call is collapsed to null by the catch branch. -/
def getEbook (remote : Except String (Option RawEbook)) : Option RawEbook :=
  match remote with
  | .ok v => v
  | .error _ => none

/-- Function getEbookCount from stacks.ts: a throwing call is collapsed
to 0 by the catch branch. -/
def getEbookCount (remote : Except String Nat) : Nat :=
  match remote with
  | .ok n => n
  | .error _ => 0

/-- Function hasAccess from stacks.ts: a throwing call is collapsed to
false by the catch branch. -/
def hasAccess (remote : Except String Bool) : Bool :=
  match remote with
  | .ok b => b
  | .error _ => false

/-- Function isAuthor from stacks.ts: a throwing call is collapsed to
false by the catch branch. -/
def isAuthor (remote : Except String Bool) : Bool :=
  match remote with
  | .ok b => b
  | .error _ => false

/-- Function getAuthorEbooks from stacks.ts: a throwing call is
collapsed to the empty list by the catch branch, and a null reply is
also collapsed to the empty list by `ids || []`. -/
def getAuthorEbooks (remote : Except String (Option (List Nat))) : List Nat :=
  match remote with
  | .ok (some ids) => ids
  | .ok none => []
  | .error _ => []

/-- Function getBuyerEbooks from stacks.ts: same collapse as
getAuthorEbooks. -/
def getBuyerEbooks (remote : Except String (Option (List Nat))) : List Nat :=
  match remote with
  | .ok (some ids) => ids
  | .ok none => []
  | .error _ => []

/-- Execution environment read by the session helpers in stacks.ts:
whether a browser `window` object exists, the persisted
`userSession.isUserSignedIn()` state, the `NEXT_PUBLIC_NETWORK`
environment variable, and the two account identifiers stored in the
wallet profile. -/
structure Env where
  hasWindow : Bool
  userSessionSignedIn : Bool
  networkEnv : Option String
  stxAddressMainnet : String
  stxAddressTestnet : String
deriving DecidableEq

/-- Function isSignedIn from stacks.ts: false whenever `window` is
undefined, otherwise the persisted session state. -/
def isSignedIn (e : Env) : Bool :=
  if e.hasWindow then e.userSessionSignedIn else false

/-- Function getUserAddress from stacks.ts: null when not signed in;
otherwise the mainnet address exactly when the effective network
string (`NEXT_PUBLIC_NETWORK || "mainnet"`, a JavaScript `||` that
takes the default both for an unset variable and for the falsy empty
string) equals "mainnet", and the testnet address for every other
value. -/
def getUserAddress (e : Env) : Option String :=
  if isSignedIn e then
    if jsStrOr e.networkEnv "mainnet" = "mainnet"
    then some e.stxAddressMainnet
    else some e.stxAddressTestnet
  else none

/-- Fixture: a record whose active flag is present and false. -/
def rawInactive : RawEbook :=
  ⟨some "Title A", some "Desc A", some "hashA", none, some 100, some "SPAUTHOR", some 5, none, some false⟩

/-- Fixture: a record whose active flag is absent. -/
def rawMissingActive : RawEbook :=
  ⟨some "Title B", some "Desc B", some "hashB", none, some 100, some "SPAUTHOR", some 5, none, none⟩

/-- Fixture oracle delivering `rawInactive` at id 1 and null elsewhere. -/
def fetchInactive : Nat → Option RawEbook :=
  fun i => if i = 1 then some rawInactive else none

/-- Fixture oracle delivering `rawMissingActive` at id 1 and null
elsewhere. -/
def fetchMissingActive : Nat → Option RawEbook :=
  fun i => if i = 1 then some rawMissingActive else none

/-- Fixture: publish form with a positive price below one microSTX. -/
def formTinyPrice : UploadForm :=
  ⟨true, "My Book", "A description", PriceField.value (1/10000000), none, "QmX"⟩

/-- Fixture: publish form with all fields valid. -/
def formOk : UploadForm :=
  ⟨true, "My Book", "A description", PriceField.value 2, none, "QmX"⟩

/-- Fixture: publish form with an empty title. -/
def formNoTitle : UploadForm :=
  ⟨true, "", "A description", PriceField.value 2, none, "QmX"⟩

/-- Fixture digest function. -/
def idDigest : List Nat → List Nat := fun b => b

/-- Fixture environment: no browser window. -/
def envNoWindow : Env := ⟨false, true, some "mainnet", "SPMAIN", "STTEST"⟩

/-- Fixture environment: browser window present, signed out. -/
def envSignedOut : Env := ⟨true, false, some "mainnet", "SPMAIN", "STTEST"⟩

/-- Fixture environment: signed in, mainnet configuration. -/
def envMainnet : Env := ⟨true, true, some "mainnet", "SPMAIN", "STTEST"⟩

/-- Fixture environment: signed in, testnet configuration. -/
def envTestnet : Env := ⟨true, true, some "testnet", "SPMAIN", "STTEST"⟩

/-- Fixture environment: signed in, network variable unset. -/
def envUnsetNet : Env := ⟨true, true, none, "SPMAIN", "STTEST"⟩

/-- Fixture environment: signed in, network variable set to the empty
string. -/
def envEmptyNet : Env := ⟨true, true, some "", "SPMAIN", "STTEST"⟩

theorem getAllEbooksGo_eq (fetch : Nat → Option RawEbook) (ids : List Nat) :
    getAllEbooksGo fetch ids = (ids, ids.filterMap (activeEntry fetch)) := by
  induction ids with
  | nil => rfl
  | cons i rest ih =>
    rw [getAllEbooksGo, ih, List.filterMap_cons]
    unfold activeEntry
    cases hfi : fetch i with
    | none => simp
    | some r =>
      by_cases hac : r.active = some true
      · simp [hac]
      · simp [hac]

theorem scanGo_eq (address : String) (fetch : Nat → Option RawEbook) (ids : List Nat) :
    scanGo address fetch ids = ids.filterMap (scanEntry address fetch) := by
  induction ids with
  | nil => rfl
  | cons i rest ih =>
    rw [scanGo, ih, List.filterMap_cons]
    unfold scanEntry
    cases hfi : fetch i with
    | none => simp
    | some r =>
      by_cases hau : r.author = some address
      · simp [hau]
      · simp [hau]

theorem mem_getAllEbooks (count : Nat) (fetch : Nat → Option RawEbook) (b : Ebook) :
    b ∈ getAllEbooks count fetch ↔
      ∃ i, i ∈ List.range' 1 count ∧ activeEntry fetch i = some b := by
  unfold getAllEbooks getAllEbooksRun
  rw [getAllEbooksGo_eq]
  exact List.mem_filterMap

theorem mem_loadMyBooksPublished (address : String) (count : Nat)
    (fetch : Nat → Option RawEbook) (b : Ebook) :
    b ∈ loadMyBooksPublished address count fetch ↔
      ∃ i, i ∈ List.range' 1 count ∧ scanEntry address fetch i = some b := by
  unfold loadMyBooksPublished
  rw [scanGo_eq]
  exact List.mem_filterMap

theorem activeEntry_id (fetch : Nat → Option RawEbook) (i : Nat) (b : Ebook)
    (h : activeEntry fetch i = some b) : b.id = i := by
  unfold activeEntry at h
  cases hfi : fetch i with
  | none => rw [hfi] at h; exact absurd h (by simp)
  | some r =>
    rw [hfi] at h
    by_cases hac : r.active = some true
    · have hb : convertHome i r = b := by simpa [hac] using h
      rw [← hb]
      rfl
    · exact absurd h (by simp [hac])

/-- Claim C1: for every positive amount x, converting x from STX to
microSTX with stxToMicroStx and back with microStxToStx yields a value
equal to x up to the floor-rounding error of one smallest unit: the
difference x - microStxToStx (stxToMicroStx x) lies in [0, 1/1000000). -/
theorem C1_stx_roundtrip (x : ℚ) (hx : 0 < x) :
    0 ≤ x - microStxToStx (stxToMicroStx x) ∧
    x - microStxToStx (stxToMicroStx x) < 1 / 1000000 := by
  have h1 : ((⌊x * 1000000⌋ : ℤ) : ℚ) ≤ x * 1000000 := Int.floor_le _
  have h2 : x * 1000000 < ((⌊x * 1000000⌋ : ℤ) : ℚ) + 1 := Int.lt_floor_add_one _
  unfold microStxToStx stxToMicroStx
  constructor
  · linarith
  · linarith

/-- Witness for C1 at x = 3/2. -/
theorem C1_stx_roundtrip_witness :
    0 ≤ (3/2 : ℚ) - microStxToStx (stxToMicroStx (3/2)) ∧
    (3/2 : ℚ) - microStxToStx (stxToMicroStx (3/2)) < 1 / 1000000 :=
  C1_stx_roundtrip (3/2) (by norm_num)

/-- Claim C2 counterexample: the price input parsing to 1/10000000
(the string "0.0000001") is strictly positive, so it is accepted by the
local validation, yet the submission reaches the register-ebook
transaction with a price argument of 0 — not strictly greater than 0 as
the claim states. -/
theorem C2_price_counterexample :
    (0 : ℚ) < 1 / 10000000 ∧
    handleSubmit formTinyPrice idDigest =
      SubmitOutcome.transaction "My Book" "A description" (utf8Bytes "QmX") 0 ∧
    ¬ (0 : ℚ) < 0 := by
  refine ⟨by norm_num, ?_, by norm_num⟩
  have hval : stxToMicroStx (1/10000000) = 0 := by unfold stxToMicroStx; norm_num
  simp only [handleSubmit, formTinyPrice, idDigest]
  rw [if_neg (by decide), if_neg (by decide), if_neg (by decide),
      if_neg (by norm_num [priceRejected]), if_neg (by decide)]
  simpa using hval

/-- Claim C2 (amended): for every price string accepted by the publish
form's local validation, the price argument passed to the
register-ebook transaction is an unsigned (non-negative) integer in
microSTX; it is strictly greater than 0 whenever the parsed price is at
least one smallest unit (1/1000000 STX), while parsed prices strictly
between 0 and 1/1000000 pass validation but yield a price argument
of 0. -/
theorem C2_price_amended (form : UploadForm) (digest : List Nat → List Nat) (q : ℚ)
    (t d : String) (h : List Nat) (m : ℚ)
    (hp : form.price = PriceField.value q)
    (hres : handleSubmit form digest = SubmitOutcome.transaction t d h m) :
    (∃ z : ℤ, m = (z : ℚ) ∧ 0 ≤ z) ∧
    (1 / 1000000 ≤ q → ∃ z : ℤ, m = (z : ℚ) ∧ 0 < z) := by
  unfold handleSubmit at hres
  split_ifs at hres with h1 h2 h3 h4 h5 <;>
  first
  | exact SubmitOutcome.noConfusion hres
  | (rw [hp] at hres h4
     simp only [priceRejected, decide_eq_true_eq] at h4
     have hq : 0 < q := lt_of_not_le h4
     have hm : stxToMicroStx q = m := by
       cases hres
       rfl
     have hmz : m = ((⌊q * 1000000⌋ : ℤ) : ℚ) := by rw [← hm]; rfl
     constructor
     · refine ⟨⌊q * 1000000⌋, hmz, ?_⟩
       have : (0 : ℚ) ≤ q * 1000000 := by nlinarith
       exact Int.floor_nonneg.mpr this
     · intro hge
       refine ⟨⌊q * 1000000⌋, hmz, ?_⟩
       have h1le : (1 : ℤ) ≤ ⌊q * 1000000⌋ := by
         apply Int.le_floor.mpr
         push_cast
         linarith
       omega)

/-- Witness for the amended C2 at the all-valid form with parsed
price 2. -/
theorem C2_price_amended_witness :
    (∃ z : ℤ, (2000000 : ℚ) = (z : ℚ) ∧ 0 ≤ z) ∧
    (1 / 1000000 ≤ (2 : ℚ) → ∃ z : ℤ, (2000000 : ℚ) = (z : ℚ) ∧ 0 < z) :=
  C2_price_amended formOk idDigest 2 "My Book" "A description" (utf8Bytes "QmX") 2000000 rfl
    (by
      have hval : stxToMicroStx 2 = 2000000 := by unfold stxToMicroStx; norm_num
      simp only [handleSubmit, formOk, idDigest]
      rw [if_neg (by decide), if_neg (by decide), if_neg (by decide),
          if_neg (by norm_num [priceRejected]), if_neg (by decide)]
      simpa using hval)

/-- Claim C3: every submission of the publish form with an empty
(all-whitespace) title, a price parsing to 0 or a negative number, or a
missing (all-whitespace) IPFS CID is rejected locally: an inline error
message is set and the outcome is not the transaction, so no remote
call — neither a read nor a transaction request — is issued. -/
theorem C3_local_validation (form : UploadForm) (digest : List Nat → List Nat)
    (hbad : (jsTrim form.title).isEmpty = true ∨
            (∃ q, form.price = PriceField.value q ∧ q ≤ 0) ∨
            (jsTrim form.ipfsCid).isEmpty = true) :
    ∃ msg, handleSubmit form digest = SubmitOutcome.rejected msg := by
  unfold handleSubmit
  split_ifs with h1 h2 h3 h4 h5
  · exact ⟨_, rfl⟩
  · exact ⟨_, rfl⟩
  · exact ⟨_, rfl⟩
  · exact ⟨_, rfl⟩
  · exact ⟨_, rfl⟩
  · exfalso
    rcases hbad with ht | ⟨q, hq, hql⟩ | hc
    · exact h2 ht
    · exact h4 (by rw [hq]; simpa [priceRejected] using hql)
    · exact h5 hc

/-- Witness for C3 at a signed-in form whose title is empty. -/
theorem C3_local_validation_witness :
    ∃ msg, handleSubmit formNoTitle idDigest = SubmitOutcome.rejected msg :=
  C3_local_validation formNoTitle idDigest (Or.inl (by decide))

theorem formOk_submit_eval :
    handleSubmit formOk idDigest =
      SubmitOutcome.transaction "My Book" "A description" (utf8Bytes "QmX") 2000000 := by
  have hval : stxToMicroStx 2 = 2000000 := by unfold stxToMicroStx; norm_num
  simp only [handleSubmit, formOk, idDigest]
  rw [if_neg (by decide), if_neg (by decide), if_neg (by decide),
      if_neg (by norm_num [priceRejected]), if_neg (by decide)]
  simpa using hval

theorem not_mem_getAllEbooks_of_not_active (count i : Nat) (fetch : Nat → Option RawEbook)
    (r : RawEbook) (hf : fetch i = some r) (hact : ¬ r.active = some true) :
    ∀ b ∈ getAllEbooks count fetch, b.id ≠ i := by
  intro b hb hbid
  obtain ⟨j, hj, hje⟩ := (mem_getAllEbooks count fetch b).mp hb
  have hji : j = i := by rw [← activeEntry_id fetch j b hje, hbid]
  rw [hji] at hje
  unfold activeEntry at hje
  rw [hf] at hje
  have hje2 : (if r.active = some true then some (convertHome i r) else none) = some b := hje
  rw [if_neg hact] at hje2
  exact Option.noConfusion hje2

theorem mem_loadMyBooksPublished_of_author (count i : Nat) (fetch : Nat → Option RawEbook)
    (r : RawEbook) (addr : String) (hi : i ∈ List.range' 1 count) (hf : fetch i = some r)
    (hauth : r.author = some addr) :
    convertMyBooks i r ∈ loadMyBooksPublished addr count fetch := by
  apply (mem_loadMyBooksPublished addr count fetch _).mpr
  refine ⟨i, hi, ?_⟩
  unfold scanEntry
  rw [hf]
  simp [hauth]

/-- Claim C4: getAllEbooks, run against a count reply of n, performs
exactly n sequential single-record fetches for ids 1 through n (the
fetch trace is [1, ..., n] in order), its result keeps exactly the
fetched records whose active flag is truthy, and when the count reply
is 0 the run has an empty trace — no per-record fetch is attempted —
and an empty result. -/
theorem C4_getAllEbooks_shape (count : Nat) (fetch : Nat → Option RawEbook) :
    (getAllEbooksRun count fetch).1 = List.range' 1 count ∧
    getAllEbooks count fetch = (List.range' 1 count).filterMap (activeEntry fetch) ∧
    getAllEbooksRun 0 fetch = ([], []) := by
  refine ⟨?_, ?_, rfl⟩
  · rw [getAllEbooksRun, getAllEbooksGo_eq]
  · rw [getAllEbooks, getAllEbooksRun, getAllEbooksGo_eq]

/-- Claim C5: a fetched record whose active flag is false is excluded
from the getAllEbooks result (no element of the result carries its id),
but when its author field equals the signed-in user's address it is
included in the full-scan result that forms the My Books published
list. -/
theorem C5_inactive_listing (count i : Nat) (fetch : Nat → Option RawEbook) (r : RawEbook)
    (addr : String) (hi : i ∈ List.range' 1 count) (hf : fetch i = some r)
    (hact : r.active = some false) (hauth : r.author = some addr) :
    (∀ b ∈ getAllEbooks count fetch, b.id ≠ i) ∧
    convertMyBooks i r ∈ loadMyBooksPublished addr count fetch := by
  constructor
  · exact not_mem_getAllEbooks_of_not_active count i fetch r hf (by simp [hact])
  · exact mem_loadMyBooksPublished_of_author count i fetch r addr hi hf hauth

/-- Witness for C5: one listing on chain, inactive, authored by the
signed-in address. -/
theorem C5_inactive_listing_witness :
    (∀ b ∈ getAllEbooks 1 fetchInactive, b.id ≠ 1) ∧
    convertMyBooks 1 rawInactive ∈ loadMyBooksPublished "SPAUTHOR" 1 fetchInactive :=
  C5_inactive_listing 1 1 fetchInactive rawInactive "SPAUTHOR" (by decide) rfl rfl rfl

/-- Claim C6: every read-access wrapper collapses a throwing remote
call to its fixed default — getEbook to null, getEbookCount to 0,
hasAccess and isAuthor to false, getAuthorEbooks and getBuyerEbooks to
the empty list — and each default coincides with the wrapper's value on
a genuinely empty successful reply, so a caller cannot distinguish a
failed request from empty data. -/
theorem C6_error_collapse (e : String) :
    getEbook (Except.error e) = none ∧
    getEbookCount (Except.error e) = 0 ∧
    hasAccess (Except.error e) = false ∧
    isAuthor (Except.error e) = false ∧
    getAuthorEbooks (Except.error e) = [] ∧
    getBuyerEbooks (Except.error e) = [] ∧
    getEbook (Except.error e) = getEbook (Except.ok none) ∧
    getEbookCount (Except.error e) = getEbookCount (Except.ok 0) ∧
    hasAccess (Except.error e) = hasAccess (Except.ok false) ∧
    isAuthor (Except.error e) = isAuthor (Except.ok false) ∧
    getAuthorEbooks (Except.error e) = getAuthorEbooks (Except.ok none) ∧
    getBuyerEbooks (Except.error e) = getBuyerEbooks (Except.ok none) :=
  ⟨rfl, rfl, rfl, rfl, rfl, rfl, rfl, rfl, rfl, rfl, rfl, rfl⟩

/-- Claim C7: whenever a publish-form submission reaches the
transaction step, the content fingerprint passed to register-ebook is
the digest of the UTF-8 bytes of the user-supplied IPFS CID string, and
the outcome does not depend on the selected file at all (the digest
primitive is SHA-256 in the browser; it is a parameter here because
`crypto.subtle` is a platform API, and the theorem holds for every
digest function). -/
theorem C7_content_fingerprint (form : UploadForm) (digest : List Nat → List Nat)
    (t d : String) (h : List Nat) (m : ℚ)
    (hres : handleSubmit form digest = SubmitOutcome.transaction t d h m) :
    h = digest (utf8Bytes form.ipfsCid) ∧
    ∀ fb, handleSubmit (setFile form fb) digest = handleSubmit form digest := by
  constructor
  · unfold handleSubmit at hres
    split_ifs at hres with h1 h2 h3 h4 h5 <;>
    first
    | exact SubmitOutcome.noConfusion hres
    | (cases hp : form.price with
       | value q =>
           rw [hp] at hres
           cases hres
           rfl
       | empty =>
           rw [hp] at hres
           exact SubmitOutcome.noConfusion hres
       | invalid =>
           rw [hp] at hres
           exact SubmitOutcome.noConfusion hres)
  · intro fb
    rfl

/-- Witness for C7 at the all-valid form. -/
theorem C7_content_fingerprint_witness :
    utf8Bytes "QmX" = idDigest (utf8Bytes formOk.ipfsCid) ∧
    ∀ fb, handleSubmit (setFile formOk fb) idDigest = handleSubmit formOk idDigest :=
  C7_content_fingerprint formOk idDigest "My Book" "A description" (utf8Bytes "QmX") 2000000
    formOk_submit_eval

/-- Claim C8 counterexample: the empty string is a configuration value
other than the production value "mainnet", yet for a signed-in
environment whose network variable is set to the empty string,
getUserAddress returns the mainnet account identifier (the JavaScript
`NEXT_PUBLIC_NETWORK || "mainnet"` treats the empty string as falsy),
not the testnet identifier as the claim states — the two identifiers
being distinct in this environment. -/
theorem C8_session_counterexample :
    envEmptyNet.networkEnv = some "" ∧
    "" ≠ "mainnet" ∧
    getUserAddress envEmptyNet = some envEmptyNet.stxAddressMainnet ∧
    envEmptyNet.stxAddressMainnet ≠ envEmptyNet.stxAddressTestnet :=
  ⟨rfl, by decide, by decide, by decide⟩

/-- Claim C8 (amended): isSignedIn is false in any non-browser context
(no window object); getUserAddress is null whenever isSignedIn is
false, and otherwise selects the mainnet account identifier when the
effective network configuration (`NEXT_PUBLIC_NETWORK || "mainnet"`) is
the production value — in particular also when the variable is unset or
set to the falsy empty string — and the testnet account identifier for
every other, non-empty, configuration value. -/
theorem C8_session_amended (e : Env) (v : String) :
    (e.hasWindow = false → isSignedIn e = false) ∧
    (isSignedIn e = false → getUserAddress e = none) ∧
    (isSignedIn e = true → e.networkEnv = some "mainnet" →
      getUserAddress e = some e.stxAddressMainnet) ∧
    (isSignedIn e = true → e.networkEnv = none →
      getUserAddress e = some e.stxAddressMainnet) ∧
    (isSignedIn e = true → e.networkEnv = some "" →
      getUserAddress e = some e.stxAddressMainnet) ∧
    (isSignedIn e = true → e.networkEnv = some v → v ≠ "mainnet" → v ≠ "" →
      getUserAddress e = some e.stxAddressTestnet) := by
  refine ⟨?_, ?_, ?_, ?_, ?_, ?_⟩
  · intro hw
    simp [isSignedIn, hw]
  · intro hs
    simp [getUserAddress, hs]
  · intro hs hn
    simp [getUserAddress, jsStrOr, hs, hn]
  · intro hs hn
    simp [getUserAddress, jsStrOr, hs, hn]
  · intro hs hn
    simp [getUserAddress, jsStrOr, hs, hn]
  · intro hs hn hv hve
    simp [getUserAddress, jsStrOr, hs, hn, hve, hv]

/-- Witness for the amended C8 at six concrete environments. -/
theorem C8_session_amended_witness :
    isSignedIn envNoWindow = false ∧
    getUserAddress envSignedOut = none ∧
    getUserAddress envMainnet = some envMainnet.stxAddressMainnet ∧
    getUserAddress envUnsetNet = some envUnsetNet.stxAddressMainnet ∧
    getUserAddress envEmptyNet = some envEmptyNet.stxAddressMainnet ∧
    getUserAddress envTestnet = some envTestnet.stxAddressTestnet :=
  ⟨(C8_session_amended envNoWindow "x").1 rfl,
   (C8_session_amended envSignedOut "x").2.1 rfl,
   (C8_session_amended envMainnet "x").2.2.1 rfl rfl,
   (C8_session_amended envUnsetNet "x").2.2.2.1 rfl rfl,
   (C8_session_amended envEmptyNet "x").2.2.2.2.1 rfl rfl,
   (C8_session_amended envTestnet "testnet").2.2.2.2.2 rfl rfl (by decide) (by decide)⟩

/-- Claim C9: the My Books published list is exactly the full-scan
result over ids 1..count filtered on the author field matching the
signed-in address — the author-indexed id list is fetched but
contributes no entries to it (the published list is unchanged under any
replacement of that list) — while the purchased list is built solely
from the buyer-indexed id list, with no scan fallback (it is unchanged
under any replacement of the count). -/
theorem C9_my_books_sources (addr : String) (count count2 : Nat)
    (authorIds authorIds2 buyerIds : List Nat) (fetch : Nat → Option RawEbook) :
    (loadMyBooks addr count authorIds buyerIds fetch).published =
      (loadMyBooks addr count authorIds2 buyerIds fetch).published ∧
    (loadMyBooks addr count authorIds buyerIds fetch).published =
      (List.range' 1 count).filterMap (scanEntry addr fetch) ∧
    (loadMyBooks addr count authorIds buyerIds fetch).purchased =
      buyerIds.filterMap (fun i => Option.map (convertMyBooks i) (fetch i)) ∧
    (loadMyBooks addr count authorIds buyerIds fetch).purchased =
      (loadMyBooks addr count2 authorIds buyerIds fetch).purchased := by
  refine ⟨rfl, ?_, rfl, rfl⟩
  exact scanGo_eq addr fetch (List.range' 1 count)

/-- Claim C10: a fetched record whose active flag is absent is treated
as active by the My Books page — its conversion carries active = true
(the code tests `active !== false`) and it appears in the published
list when its author matches, and in the purchased list when its id is
in the buyer-indexed list — whereas getAllEbooks excludes the same
record from the all-active-listings result because it requires a truthy
active flag. -/
theorem C10_missing_active_flag (count i : Nat) (fetch : Nat → Option RawEbook)
    (r : RawEbook) (addr : String) (buyerIds : List Nat)
    (hi : i ∈ List.range' 1 count) (hf : fetch i = some r) (hact : r.active = none)
    (hauth : r.author = some addr) (hbuy : i ∈ buyerIds) :
    (∀ b ∈ getAllEbooks count fetch, b.id ≠ i) ∧
    (convertMyBooks i r).active = true ∧
    convertMyBooks i r ∈ loadMyBooksPublished addr count fetch ∧
    convertMyBooks i r ∈ loadMyBooksPurchased buyerIds fetch := by
  refine ⟨?_, ?_, ?_, ?_⟩
  · exact not_mem_getAllEbooks_of_not_active count i fetch r hf (by simp [hact])
  · simp [convertMyBooks, hact]
  · exact mem_loadMyBooksPublished_of_author count i fetch r addr hi hf hauth
  · unfold loadMyBooksPurchased
    apply List.mem_filterMap.mpr
    exact ⟨i, hbuy, by rw [hf]; rfl⟩

/-- Witness for C10: one listing on chain whose active flag is absent,
authored by the signed-in address and also present in the buyer list. -/
theorem C10_missing_active_flag_witness :
    (∀ b ∈ getAllEbooks 1 fetchMissingActive, b.id ≠ 1) ∧
    (convertMyBooks 1 rawMissingActive).active = true ∧
    convertMyBooks 1 rawMissingActive ∈ loadMyBooksPublished "SPAUTHOR" 1 fetchMissingActive ∧
    convertMyBooks 1 rawMissingActive ∈ loadMyBooksPurchased [1] fetchMissingActive :=
  C10_missing_active_flag 1 1 fetchMissingActive rawMissingActive "SPAUTHOR" [1]
    (by decide) rfl rfl rfl (by decide)
